import Mathlib

/-!
Shallow embedding of the llm-swarm MCP server core (Cheapopus repository):
the MiniMax cost estimator (`minimax-client.ts`), the chunked batch
dispatcher (`batch-processor.ts`), the usage ledger (`usage-tracker.ts`)
and the quota gate of the `llm_batch` tool (`index.ts`).

Modelling conventions:
- JavaScript numbers that hold token counts, lengths and timestamps are
  modelled as `Nat`; monetary amounts are modelled as exact rationals `ℚ`
  (the source performs the same arithmetic in IEEE doubles).
- Timestamps (`Date.now()`, `new Date()`) are passed explicitly as a `now`
  parameter in epoch milliseconds; the ISO calendar date string of
  `getTodayDate` is modelled as the epoch day number `now / 86400000`,
  which identifies the same calendar day (UTC) as the ISO string.
- The remote Gateway (`MinimaxClient.query`) is an external collaborator;
  it is modelled as a function argument
  `gateway : BatchTask → Except String QueryResult`: `.ok` is a fulfilled
  promise, `.error e` is a rejection whose stringified reason is `e`.
- `async`/`await` sequencing inside one call is modelled by ordinary
  sequential evaluation; state mutated by the `UsageTracker` class is
  passed explicitly (state in, state out).
- JavaScript truthiness in conditions on optional strings (`params.error ?`,
  `params.caller &&`) is modelled explicitly: `some ""` is falsy.
-/

namespace LlmSwarm

/-! ## minimax-client.ts -/

/-- Usage counters returned by the Gateway (`MinimaxUsage`). -/
structure MinimaxUsage where
  input_tokens : Nat
  output_tokens : Nat
deriving Repr, DecidableEq

/-- MiniMax M2.5 pricing constants (`PRICING`), per million tokens. -/
def PRICING_input_per_million : ℚ := 15 / 100

/-- Output-token price per million tokens (`PRICING.output_per_million`). -/
def PRICING_output_per_million : ℚ := 120 / 100

/-- JavaScript `Math.round`: round half toward positive infinity. -/
def jsMathRound (x : ℚ) : ℤ := ⌊x + 1 / 2⌋

/-- `estimateCost` from `minimax-client.ts`: cost of a usage record, rounded
to 6 decimal places by `Math.round((inputCost + outputCost) * 1e6) / 1e6`. -/
def estimateCost (usage : MinimaxUsage) : ℚ :=
  let inputCost := (usage.input_tokens : ℚ) / 1000000 * PRICING_input_per_million
  let outputCost := (usage.output_tokens : ℚ) / 1000000 * PRICING_output_per_million
  (jsMathRound ((inputCost + outputCost) * 1000000) : ℚ) / 1000000

/-- Successful Gateway reply, the part of `MinimaxClient.query`'s result the
batch processor consumes (`response` text and `usage`). -/
structure QueryResult where
  response : String
  usage : MinimaxUsage
deriving Repr, DecidableEq

/-! ## batch-processor.ts -/

/-- `BatchTask` from `batch-processor.ts`. -/
structure BatchTask where
  id : String
  prompt : String
  system : Option String := none
  max_tokens : Option Nat := none
deriving Repr, DecidableEq

/-- `BatchResult` from `batch-processor.ts`. -/
structure BatchResult where
  id : String
  response : String
  usage : MinimaxUsage
  success : Bool
  error : Option String := none
deriving Repr, DecidableEq

/-- `BatchSummary` from `batch-processor.ts`. -/
structure BatchSummary where
  total_tasks : Nat
  succeeded : Nat
  failed : Nat
  total_input_tokens : Nat
  total_output_tokens : Nat
  total_cost_usd : ℚ
  duration_ms : Nat
deriving Repr, DecidableEq

/-- The Gateway as seen by the dispatcher: one prompt-to-completion call that
either fulfills with a `QueryResult` or rejects with an error message. -/
def Gateway : Type := BatchTask → Except String QueryResult

/-- One settled task, mirroring `processTask` composed with the
`Promise.allSettled` handling in `processBatch` (lines 57-70): a fulfilled
call yields the success record built by `processTask`; a rejected call
yields the failure record built inline
(`id`, empty `response`, zero usage, `success: false`, stringified error). -/
def settleTask (gateway : Gateway) (task : BatchTask) : BatchResult :=
  match gateway task with
  | Except.ok r =>
      { id := task.id, response := r.response, usage := r.usage
        success := true, error := none }
  | Except.error e =>
      { id := task.id, response := ""
        usage := { input_tokens := 0, output_tokens := 0 }
        success := false, error := some e }

/-- The chunking loop of `processBatch`
(`for (let i = 0; i < tasks.length; i += maxConcurrent)` with
`tasks.slice(i, i + maxConcurrent)`): consecutive groups of `n` tasks, the
last group possibly smaller. For `n = 0` the source loop does not advance
(the tool schema guarantees `n ≥ 1`); the embedding uses `max n 1` so the
definition is total, which coincides with the source for every `n ≥ 1`. -/
def chunkList (n : Nat) : List α → List (List α)
  | [] => []
  | x :: xs => ((x :: xs).take (max n 1)) :: chunkList n ((x :: xs).drop (max n 1))
termination_by l => l.length
decreasing_by
  simp only [List.length_drop, List.length_cons]
  omega

/-- `BatchProcessor.processBatch`: chunk the task list by the effective
concurrency (`concurrency ?? this.defaultConcurrency`), settle every chunk
against the Gateway in order, concatenate the per-chunk results in order,
then build the summary. `duration_ms` is wall-clock time, passed in as an
opaque parameter. -/
def processBatch (gateway : Gateway) (tasks : List BatchTask)
    (concurrency : Option Nat) (defaultConcurrency : Nat)
    (duration_ms : Nat) : List BatchResult × BatchSummary :=
  let maxConcurrent := concurrency.getD defaultConcurrency
  let results := ((chunkList maxConcurrent tasks).map
    (fun chunk => chunk.map (settleTask gateway))).flatten
  let succeeded := (results.filter (fun r => r.success)).length
  let totalInputTokens := results.foldl (fun sum r => sum + r.usage.input_tokens) 0
  let totalOutputTokens := results.foldl (fun sum r => sum + r.usage.output_tokens) 0
  ⟨results,
   { total_tasks := tasks.length
     succeeded := succeeded
     failed := tasks.length - succeeded
     total_input_tokens := totalInputTokens
     total_output_tokens := totalOutputTokens
     total_cost_usd := estimateCost
       { input_tokens := totalInputTokens, output_tokens := totalOutputTokens }
     duration_ms := duration_ms }⟩

/-! ## usage-tracker.ts -/

/-- `UsageWindow`: the rolling 5-hour quota window. Timestamps are epoch
milliseconds (the source stores ISO strings of the same instants). -/
structure UsageWindow where
  window_start : Nat
  window_end : Nat
  prompt_count : Nat
  total_input_tokens : Nat
  total_output_tokens : Nat
  estimated_cost_usd : ℚ
deriving Repr, DecidableEq

/-- `DailyTotal`: per-calendar-day rollup. `date` is the epoch day number,
modelling the ISO `YYYY-MM-DD` string. -/
structure DailyTotal where
  date : Nat
  prompt_count : Nat
  total_input_tokens : Nat
  total_output_tokens : Nat
  estimated_cost_usd : ℚ
deriving Repr, DecidableEq

/-- Request type tag, `"query" | "batch"`. -/
inductive RequestType where
  | query
  | batch
deriving Repr, DecidableEq

/-- `RequestLog`: one entry of the rolling recent-request log. -/
structure RequestLog where
  timestamp : Nat
  type : RequestType
  task_count : Nat
  input_tokens : Nat
  output_tokens : Nat
  cost_usd : ℚ
  response_time_ms : Nat
  caller : Option String := none
  error : Option String := none
  failed_count : Option Nat := none
deriving Repr, DecidableEq

/-- Pipeline run status, `"running" | "completed" | "failed"`. -/
inductive RunStatus where
  | running
  | completed
  | failed
deriving Repr, DecidableEq

/-- `PipelineRun`: one entry of the rolling pipeline-run log.
`findings_by_difficulty` is a string-keyed record, modelled as an
association list (the source always writes the empty record `{}`). -/
structure PipelineRun where
  id : String
  started : Nat
  completed : Option Nat := none
  skill_chain : List String
  findings_total : Nat
  findings_by_difficulty : List (String × Nat)
  minimax_tasks : Nat
  opus_tasks : Nat
  minimax_cost_usd : ℚ
  status : RunStatus
deriving Repr, DecidableEq

/-- Static provider metadata stored in the durable file. -/
structure Provider where
  name : String
  input_per_million : ℚ
  output_per_million : ℚ
deriving Repr, DecidableEq

/-- `UsageData`: the root ledger state. `recent_requests` and
`pipeline_runs` are optional in the source interface (backward
compatibility), so they stay `Option` here; `provider` likewise. -/
structure UsageData where
  current_window : UsageWindow
  daily_totals : List DailyTotal
  recent_requests : Option (List RequestLog) := none
  pipeline_runs : Option (List PipelineRun) := none
  provider : Option Provider := none
deriving Repr, DecidableEq

/-- `WINDOW_DURATION_MS = 5 * 60 * 60 * 1000` (5 hours). -/
def WINDOW_DURATION_MS : Nat := 5 * 60 * 60 * 1000

/-- `MAX_PROMPTS_PER_WINDOW = 1000`. -/
def MAX_PROMPTS_PER_WINDOW : Nat := 1000

/-- `createNewWindow`: fresh zeroed window starting at `now`, ending at
`now + WINDOW_DURATION_MS`. -/
def createNewWindow (now : Nat) : UsageWindow :=
  { window_start := now
    window_end := now + WINDOW_DURATION_MS
    prompt_count := 0
    total_input_tokens := 0
    total_output_tokens := 0
    estimated_cost_usd := 0 }

/-- `isWindowExpired`: `new Date() >= new Date(window.window_end)`. -/
def isWindowExpired (now : Nat) (window : UsageWindow) : Bool :=
  window.window_end ≤ now

/-- `getTodayDate`: the current calendar day, as the epoch day number
(models `new Date().toISOString().slice(0, 10)`). -/
def getTodayDate (now : Nat) : Nat :=
  now / 86400000

/-- The window-rotation step of `UsageTracker.ensureLoaded` (lines 137-142),
acting on already-loaded in-memory state: replace the current window by a
fresh one when it has expired. (The lazy first load from the durable file is
`loadUsageData` below.) -/
def ensureLoaded (now : Nat) (data : UsageData) : UsageData :=
  if isWindowExpired now data.current_window then
    { data with current_window := createNewWindow now }
  else
    data

/-- Pipeline context parameter of `recordRequest`. -/
structure PipelineParams where
  skill_chain : List String
  findings_total : Option Nat := none
  minimax_eligible : Option Nat := none
  opus_required : Option Nat := none
deriving Repr, DecidableEq

/-- Parameter record of `UsageTracker.recordRequest`. -/
structure RecordParams where
  type : RequestType
  taskCount : Nat
  inputTokens : Nat
  outputTokens : Nat
  costUsd : ℚ
  responseTimeMs : Nat
  caller : Option String := none
  error : Option String := none
  failedCount : Option Nat := none
  pipeline : Option PipelineParams := none
deriving Repr, DecidableEq

/-- JavaScript string truthiness for optional strings: present and
non-empty. -/
def isTruthy : Option String → Bool
  | some s => s ≠ ""
  | none => false

/-- The error-truncation step of `recordRequest` (lines 165-167):
`params.error ? (len > 500 ? slice(0,500) + "..." : error) : undefined`.
An absent or empty (falsy) error yields `undefined`. -/
def truncatedErrorOf (error : Option String) : Option String :=
  match error with
  | some e =>
      if e = "" then none
      else if 500 < e.length then some (e.take 500 ++ "...") else some e
  | none => none

/-- Update the first list element satisfying `p` (the source finds one entry
object and mutates it in place; all other elements are untouched). -/
def updateFirst (p : α → Bool) (f : α → α) : List α → List α
  | [] => []
  | x :: xs => if p x then f x :: xs else x :: updateFirst p f xs

/-- JavaScript `list.slice(-n)` applied after a push when the length exceeds
the cap (the FIFO eviction idiom of `recordRequest`): keep the last `cap`
entries when there are more than `cap`. -/
def capLast (cap : Nat) (l : List α) : List α :=
  if cap < l.length then l.drop (l.length - cap) else l

/-- The request-log entry built by `recordRequest` (lines 170-181). -/
def mkRequestLog (now : Nat) (params : RecordParams) : RequestLog :=
  { timestamp := now
    type := params.type
    task_count := params.taskCount
    input_tokens := params.inputTokens
    output_tokens := params.outputTokens
    cost_usd := params.costUsd
    response_time_ms := params.responseTimeMs
    caller := params.caller
    error := truncatedErrorOf params.error
    failed_count := params.failedCount }

/-- The window update of `recordRequest` (lines 193-196): add the supplied
quantities to the current window's counters. -/
def bumpWindow (params : RecordParams) (cw : UsageWindow) : UsageWindow :=
  { cw with
    prompt_count := cw.prompt_count + params.taskCount
    total_input_tokens := cw.total_input_tokens + params.inputTokens
    total_output_tokens := cw.total_output_tokens + params.outputTokens
    estimated_cost_usd := cw.estimated_cost_usd + params.costUsd }

/-- The zeroed daily entry created for a previously unseen day (line 201). -/
def newDailyEntry (today : Nat) : DailyTotal :=
  { date := today, prompt_count := 0, total_input_tokens := 0
    total_output_tokens := 0, estimated_cost_usd := 0 }

/-- The find-or-create step for today's daily total (lines 199-206): keep
the list as is when today's entry exists, otherwise push a zeroed entry and
cap the list at 30 (oldest evicted). -/
def dailyStep (today : Nat) (dl : List DailyTotal) : List DailyTotal :=
  match dl.find? (fun e => e.date = today) with
  | some _ => dl
  | none => capLast 30 (dl ++ [newDailyEntry today])

/-- The in-place accumulation into today's daily entry (lines 207-210). -/
def bumpDaily (params : RecordParams) (e : DailyTotal) : DailyTotal :=
  { e with
    prompt_count := e.prompt_count + params.taskCount
    total_input_tokens := e.total_input_tokens + params.inputTokens
    total_output_tokens := e.total_output_tokens + params.outputTokens
    estimated_cost_usd := e.estimated_cost_usd + params.costUsd }

/-- The pipeline-run record built by `recordRequest` (lines 218-229). -/
def mkPipelineRun (now : Nat) (params : RecordParams) (pl : PipelineParams) :
    PipelineRun :=
  { id := "run-" ++ toString now
    started := now
    completed := some now
    skill_chain := pl.skill_chain
    findings_total := pl.findings_total.getD 0
    findings_by_difficulty := []
    minimax_tasks := pl.minimax_eligible.getD 0
    opus_tasks := pl.opus_required.getD 0
    minimax_cost_usd := params.costUsd
    status := if isTruthy params.error then RunStatus.failed
              else RunStatus.completed }

/-- The pipeline-tracking step of `recordRequest` (lines 213-236): when a
pipeline context and a truthy caller are both present, append a run and cap
the list at 10 (oldest evicted); otherwise leave the field untouched. -/
def pipelineStep (now : Nat) (params : RecordParams)
    (runs : Option (List PipelineRun)) : Option (List PipelineRun) :=
  match params.pipeline with
  | some pl =>
      if isTruthy params.caller then
        some (capLast 10 (runs.getD [] ++ [mkPipelineRun now params pl]))
      else runs
  | none => runs

/-- `UsageTracker.recordRequest`, acting on loaded in-memory state at time
`now`: rotate the window if expired (`ensureLoaded`), append the request-log
entry with FIFO cap 200, add the supplied quantities to the current window,
find-or-create today's daily total (capping at 30 on creation) and add the
quantities to it, append a pipeline run (cap 10) when a pipeline context and
a truthy caller are both present, and return the new state (the source then
persists it). -/
def recordRequest (now : Nat) (params : RecordParams) (d0 : UsageData) :
    UsageData :=
  let data := ensureLoaded now d0
  let today := getTodayDate now
  { current_window := bumpWindow params data.current_window
    daily_totals := updateFirst (fun e => e.date = today) (bumpDaily params)
      (dailyStep today data.daily_totals)
    recent_requests :=
      some (capLast 200 (data.recent_requests.getD [] ++ [mkRequestLog now params]))
    pipeline_runs := pipelineStep now params data.pipeline_runs
    provider := data.provider }

/-- `UsageTracker.getRemainingPrompts`, acting on loaded in-memory state:
`Math.max(0, MAX_PROMPTS_PER_WINDOW - prompt_count)` after lazy rotation
(truncated `Nat` subtraction models the `Math.max(0, _)`). Returns the
value together with the post-call state. -/
def getRemainingPrompts (now : Nat) (d0 : UsageData) : Nat × UsageData :=
  let data := ensureLoaded now d0
  (MAX_PROMPTS_PER_WINDOW - data.current_window.prompt_count, data)

/-- Default provider metadata written by `loadUsageData`. -/
def defaultProvider : Provider :=
  { name := "minimax-m2.5"
    input_per_million := PRICING_input_per_million
    output_per_million := PRICING_output_per_million }

/-- Freshly initialized ledger state, the `catch` branch of `loadUsageData`:
zeroed window at `now`, empty rollups and logs (the source literal carries
no `pipeline_runs` key). -/
def freshUsageData (now : Nat) : UsageData :=
  { current_window := createNewWindow now
    daily_totals := []
    recent_requests := some []
    pipeline_runs := none
    provider := some defaultProvider }

/-- Outcome of reading and JSON-parsing the durable file: the file is
absent (read throws), its contents are malformed (parse throws), or it
parses to a document. A parsed document carries `current_window` and
`daily_totals` plus the optional newer fields, mirroring the `UsageData`
interface the source casts to. -/
inductive FileReadResult where
  | absent
  | malformed
  | parsed (doc : UsageData)
deriving Repr, DecidableEq

/-- `loadUsageData`: parse the durable file; default missing
`recent_requests` to `[]` and missing `provider` to the static metadata
(`if (!data.recent_requests) ... if (!data.provider) ...`; an empty list or
a present object is truthy, so present fields are kept); any read or parse
failure falls back to the freshly initialized state. `pipeline_runs` is not
defaulted at load time. -/
def loadUsageData (now : Nat) (file : FileReadResult) : UsageData :=
  match file with
  | FileReadResult.parsed doc =>
      { doc with
        recent_requests := some (doc.recent_requests.getD [])
        provider := some (doc.provider.getD defaultProvider) }
  | FileReadResult.absent => freshUsageData now
  | FileReadResult.malformed => freshUsageData now

/-! ## index.ts, the llm_batch quota gate -/

/-- The rate-limit refusal text of the `llm_batch` tool (index.ts line 159). -/
def rateLimitBatchMsg (remaining : Nat) (taskCount : Nat) : String :=
  "Rate limit: Only " ++ toString remaining ++
    " prompts remaining but " ++ toString taskCount ++
    " requested. Reduce batch size or wait for window reset."

/-- The quota gate plus dispatch of the `llm_batch` tool handler
(index.ts lines 153-166): read the remaining quota, refuse the whole batch
with the rate-limit message when it is smaller than the batch size, and
only otherwise run `processBatch` against the Gateway. The usage recording
and response assembly that follow are not needed by the claims below. -/
def llm_batch (gateway : Gateway) (remaining : Nat) (tasks : List BatchTask)
    (concurrency : Option Nat) (defaultConcurrency : Nat)
    (duration_ms : Nat) :
    Except String (List BatchResult × BatchSummary) :=
  if remaining < tasks.length then
    Except.error (rateLimitBatchMsg remaining tasks.length)
  else
    Except.ok (processBatch gateway tasks concurrency defaultConcurrency duration_ms)

/-! ## Sample inputs for concrete evaluations -/

/-- A Gateway that rejects every call. -/
def gwFail : Gateway := fun _ => Except.error "boom"

/-- A Gateway that fulfills every call with a fixed reply. -/
def gwOk : Gateway := fun _ =>
  Except.ok { response := "r", usage := { input_tokens := 10, output_tokens := 20 } }

/-- A sample task. -/
def taskA : BatchTask := { id := "a", prompt := "p" }

/-- Another sample task. -/
def taskB : BatchTask := { id := "b", prompt := "q" }

/-- A sample in-memory ledger state: window `[0, WINDOW_DURATION_MS)`,
empty rollups and logs. -/
def dataA : UsageData := freshUsageData 0

/-- Sample `recordRequest` parameters: a successful 3-task batch. -/
def paramsA : RecordParams :=
  { type := RequestType.batch, taskCount := 3, inputTokens := 100
    outputTokens := 200, costUsd := 1 / 1000, responseTimeMs := 50 }

/-- Sample `recordRequest` parameters: a failed query whose error field is
set to the empty string. -/
def paramsEmptyErr : RecordParams :=
  { type := RequestType.query, taskCount := 0, inputTokens := 0
    outputTokens := 0, costUsd := 0, responseTimeMs := 50, error := some "" }

/-- Sample `recordRequest` parameters: a failed query with a short error. -/
def paramsErr : RecordParams :=
  { type := RequestType.query, taskCount := 0, inputTokens := 0
    outputTokens := 0, costUsd := 0, responseTimeMs := 50
    error := some "MiniMax API error 500: oops" }

/-- Sample `recordRequest` parameters: a batch carrying pipeline context
and a caller. -/
def paramsPipe : RecordParams :=
  { type := RequestType.batch, taskCount := 2, inputTokens := 10
    outputTokens := 20, costUsd := 0, responseTimeMs := 9
    caller := some "copus:review"
    pipeline := some { skill_chain := ["copus:review"] } }

/-- A sample batch of five tasks. -/
def fiveTasks : List BatchTask := [taskA, taskB, taskA, taskB, taskA]

/-- A sample parsed durable document carrying only `current_window` and
`daily_totals` (the optional newer fields are absent). -/
def docA : UsageData :=
  { current_window := createNewWindow 0, daily_totals := [newDailyEntry 0] }

/-! ## Helper lemmas about the dispatcher -/

/-- The chunks of a list concatenate back to the list. -/
theorem chunkList_flatten (n : Nat) (l : List α) :
    (chunkList n l).flatten = l := by
  induction l using chunkList.induct n with
  | case1 => simp [chunkList]
  | case2 x xs ih =>
      rw [chunkList, List.flatten_cons, ih, List.take_append_drop]

/-- Mapping inside every chunk and flattening is flattening then mapping. -/
theorem flatten_map_map (f : α → β) (L : List (List α)) :
    (L.map (fun c => c.map f)).flatten = L.flatten.map f := by
  induction L with
  | nil => rfl
  | cons c L ih =>
      rw [List.map_cons, List.flatten_cons, List.flatten_cons, List.map_append, ih]

/-- A left fold accumulating `f` over a list is the sum of the mapped list. -/
theorem foldl_add_map (f : α → Nat) (l : List α) (init : Nat) :
    l.foldl (fun sum r => sum + f r) init = init + (l.map f).sum := by
  induction l generalizing init with
  | nil => simp
  | cons x xs ih => simp [ih, Nat.add_assoc]

/-- A settled task keeps the task's id, on success and on failure. -/
theorem settleTask_id (gateway : Gateway) (t : BatchTask) :
    (settleTask gateway t).id = t.id := by
  cases h : gateway t <;> simp [settleTask, h]

/-- A rejected Gateway call settles to the inline failure record. -/
theorem settleTask_of_error (gateway : Gateway) (t : BatchTask) (e : String)
    (h : gateway t = Except.error e) :
    settleTask gateway t =
      { id := t.id, response := ""
        usage := { input_tokens := 0, output_tokens := 0 }
        success := false, error := some e } := by
  simp [settleTask, h]

/-- Closed form of `processBatch`: the results are the settled tasks in
input order, and the summary fields are the corresponding aggregates. -/
theorem processBatch_eq (gateway : Gateway) (tasks : List BatchTask)
    (concurrency : Option Nat) (defaultConcurrency duration_ms : Nat) :
    processBatch gateway tasks concurrency defaultConcurrency duration_ms =
      (tasks.map (settleTask gateway),
       { total_tasks := tasks.length
         succeeded :=
           ((tasks.map (settleTask gateway)).filter (fun r => r.success)).length
         failed := tasks.length -
           ((tasks.map (settleTask gateway)).filter (fun r => r.success)).length
         total_input_tokens :=
           ((tasks.map (settleTask gateway)).map (fun r => r.usage.input_tokens)).sum
         total_output_tokens :=
           ((tasks.map (settleTask gateway)).map (fun r => r.usage.output_tokens)).sum
         total_cost_usd := estimateCost
           { input_tokens :=
               ((tasks.map (settleTask gateway)).map (fun r => r.usage.input_tokens)).sum
             output_tokens :=
               ((tasks.map (settleTask gateway)).map (fun r => r.usage.output_tokens)).sum }
         duration_ms := duration_ms }) := by
  unfold processBatch
  simp only [flatten_map_map, chunkList_flatten, foldl_add_map, Nat.zero_add]

/-! ## Claim theorems for the dispatcher -/

/-- C1: for every task list `T` and every valid concurrency limit,
`processBatch` returns exactly one result per task, and the results carry
the input tasks' ids in input order. -/
theorem batch_results_mirror_input_order (gateway : Gateway)
    (tasks : List BatchTask) (concurrency : Option Nat)
    (defaultConcurrency duration_ms : Nat)
    (hc : 0 < concurrency.getD defaultConcurrency) :
    ((processBatch gateway tasks concurrency defaultConcurrency duration_ms).1).length
        = tasks.length ∧
    ((processBatch gateway tasks concurrency defaultConcurrency duration_ms).1).map
        (fun r => r.id)
      = tasks.map (fun t => t.id) := by
  rw [processBatch_eq]
  refine ⟨by simp, ?_⟩
  simp [List.map_map, Function.comp, settleTask_id]

/-- Witness for C1 at a concrete two-task batch with concurrency 1. -/
theorem batch_results_mirror_input_order_witness :
    ((processBatch (fun _ => Except.error "boom")
        [{ id := "a", prompt := "p" }, { id := "b", prompt := "q" }]
        (some 1) 5 0).1).length = 2 ∧
    ((processBatch (fun _ => Except.error "boom")
        [{ id := "a", prompt := "p" }, { id := "b", prompt := "q" }]
        (some 1) 5 0).1).map (fun r => r.id) = ["a", "b"] := by
  have h := batch_results_mirror_input_order (fun _ => Except.error "boom")
    [{ id := "a", prompt := "p" }, { id := "b", prompt := "q" }]
    (some 1) 5 0 (by decide)
  simpa using h

/-- Every chunk produced by the chunking loop with a positive limit `n` is
nonempty and no longer than `n`. -/
theorem chunkList_sizes (n : Nat) (hn : 0 < n) (l : List α) :
    ∀ c ∈ chunkList n l, c.length ≤ n ∧ c ≠ [] := by
  induction l using chunkList.induct n with
  | case1 =>
      intro c hc
      rw [chunkList] at hc
      simp at hc
  | case2 x xs ih =>
      intro c hc
      rw [chunkList] at hc
      rcases List.mem_cons.mp hc with h | h
      · subst h
        constructor
        · rw [List.length_take]
          omega
        · have hlen : ((x :: xs).take (max n 1)).length = min (max n 1) (xs.length + 1) := by
            rw [List.length_take]; rfl
          intro hnil
          rw [hnil] at hlen
          simp at hlen
          omega
      · exact ih c h

/-- C2: a Gateway failure for the task at index `i` of a batch yields a
result at index `i` with `success = false` and a populated error, no other
task is dropped (one result per task), and `summary.failed ≥ 1`. -/
theorem batch_failure_isolated (gateway : Gateway) (tasks : List BatchTask)
    (concurrency : Option Nat) (defaultConcurrency duration_ms : Nat)
    (hc : 0 < concurrency.getD defaultConcurrency)
    (i : Nat) (hi : i < tasks.length) (e : String)
    (he : gateway (tasks.get ⟨i, hi⟩) = Except.error e) :
    ((processBatch gateway tasks concurrency defaultConcurrency duration_ms).1).length
        = tasks.length ∧
    (∃ r, ((processBatch gateway tasks concurrency defaultConcurrency
        duration_ms).1)[i]? = some r ∧ r.success = false ∧ r.error = some e) ∧
    1 ≤ ((processBatch gateway tasks concurrency defaultConcurrency duration_ms).2).failed := by
  simp only [processBatch_eq]
  have hset := settleTask_of_error gateway (tasks.get ⟨i, hi⟩) e he
  refine ⟨by simp, ?_, ?_⟩
  · refine ⟨settleTask gateway (tasks.get ⟨i, hi⟩), ?_, by rw [hset], by rw [hset]⟩
    rw [List.getElem?_map]
    rw [List.getElem?_eq_getElem hi]
    simp [List.get_eq_getElem]
  · have hmem : settleTask gateway (tasks.get ⟨i, hi⟩) ∈ tasks.map (settleTask gateway) :=
      List.mem_map_of_mem _ (tasks.get_mem i hi)
    have hlt : ((tasks.map (settleTask gateway)).filter (fun r => r.success)).length
        < (tasks.map (settleTask gateway)).length := by
      apply List.length_filter_lt_length_iff_exists.mpr
      exact ⟨settleTask gateway (tasks.get ⟨i, hi⟩), hmem, by rw [hset]; simp⟩
    have hlen : (tasks.map (settleTask gateway)).length = tasks.length := by simp
    omega

/-- Witness for C2: a single-task batch whose Gateway call rejects. -/
theorem batch_failure_isolated_witness :
    ((processBatch gwFail [taskA] (some 2) 5 0).1).length = 1 ∧
    (∃ r, ((processBatch gwFail [taskA] (some 2) 5 0).1)[0]? = some r ∧
      r.success = false ∧ r.error = some "boom") ∧
    1 ≤ ((processBatch gwFail [taskA] (some 2) 5 0).2).failed :=
  batch_failure_isolated gwFail [taskA] (some 2) 5 0 (by decide) 0 (by decide) "boom" rfl

/-- C9: with a positive effective concurrency limit, the dispatcher
partitions the tasks into consecutive nonempty groups of size at most the
limit, the groups concatenate back to the input list, and the results of
`processBatch` are exactly the per-group settled results concatenated in
group order (each group settles fully before the next is dispatched). -/
theorem batch_concurrency_bounded (gateway : Gateway) (tasks : List BatchTask)
    (concurrency : Option Nat) (defaultConcurrency duration_ms : Nat)
    (hc : 0 < concurrency.getD defaultConcurrency) :
    (chunkList (concurrency.getD defaultConcurrency) tasks).flatten = tasks ∧
    (∀ g ∈ chunkList (concurrency.getD defaultConcurrency) tasks,
        g.length ≤ concurrency.getD defaultConcurrency ∧ g ≠ []) ∧
    (processBatch gateway tasks concurrency defaultConcurrency duration_ms).1 =
      ((chunkList (concurrency.getD defaultConcurrency) tasks).map
        (fun chunk => chunk.map (settleTask gateway))).flatten :=
  ⟨chunkList_flatten _ _, chunkList_sizes _ hc _, rfl⟩

/-- Witness for C9: three tasks under concurrency limit 2 split into a
pair and a singleton. -/
theorem batch_concurrency_bounded_witness :
    0 < (some 2 : Option Nat).getD 5 ∧
    (chunkList 2 [taskA, taskB, taskA]).flatten = [taskA, taskB, taskA] ∧
    (processBatch gwOk [taskA, taskB, taskA] (some 2) 5 0).1 =
      ((chunkList 2 [taskA, taskB, taskA]).map
        (fun chunk => chunk.map (settleTask gwOk))).flatten ∧
    (chunkList 2 [taskA, taskB, taskA]).map (fun g => g.length) = [2, 1] := by
  have h := batch_concurrency_bounded gwOk [taskA, taskB, taskA] (some 2) 5 0 (by decide)
  exact ⟨by decide, h.1, h.2.2,
    by rw [chunkList.eq_def]; simp; rw [chunkList.eq_def]; simp; rw [chunkList.eq_def]⟩

/-- Any unsuccessful settled result carries zero usage. -/
theorem settled_failed_usage (gateway : Gateway) (l : List BatchTask) :
    ∀ r ∈ l.map (settleTask gateway), r.success = false →
      r.usage = { input_tokens := 0, output_tokens := 0 } := by
  intro r hr hs
  rcases List.mem_map.mp hr with ⟨t, _, rfl⟩
  cases h : gateway t with
  | ok q => simp [settleTask, h] at hs
  | error e => simp [settleTask, h]

/-- When every unsuccessful result has zero usage, summing a usage
projection over all results equals summing it over the successful ones. -/
theorem sum_usage_filter_success (f : MinimaxUsage → Nat)
    (hz : f { input_tokens := 0, output_tokens := 0 } = 0)
    (l : List BatchResult)
    (hfail : ∀ r ∈ l, r.success = false →
      r.usage = { input_tokens := 0, output_tokens := 0 }) :
    (l.map (fun r => f r.usage)).sum
      = ((l.filter (fun r => r.success)).map (fun r => f r.usage)).sum := by
  induction l with
  | nil => rfl
  | cons r l ih =>
      have hrest : ∀ x ∈ l, x.success = false →
          x.usage = { input_tokens := 0, output_tokens := 0 } :=
        fun x hx => hfail x (List.mem_cons_of_mem _ hx)
      by_cases hs : r.success = true
      · simp [List.filter_cons, hs, ih hrest]
      · have h0 : f r.usage = 0 := by
          rw [hfail r (List.mem_cons_self r l) (by simpa using hs), hz]
        simp [List.filter_cons, hs, ih hrest, h0]

/-- C10: a task whose Gateway call fails settles with an empty response and
zero usage, so the summary's token totals and estimated cost coincide with
the aggregates over the successful results alone. -/
theorem failed_task_contributes_nothing (gateway : Gateway)
    (tasks : List BatchTask) (concurrency : Option Nat)
    (defaultConcurrency duration_ms : Nat)
    (hc : 0 < concurrency.getD defaultConcurrency)
    (i : Nat) (hi : i < tasks.length) (e : String)
    (he : gateway (tasks.get ⟨i, hi⟩) = Except.error e) :
    (∃ r, ((processBatch gateway tasks concurrency defaultConcurrency
        duration_ms).1)[i]? = some r ∧ r.response = "" ∧
      r.usage = { input_tokens := 0, output_tokens := 0 }) ∧
    (processBatch gateway tasks concurrency defaultConcurrency
        duration_ms).2.total_input_tokens =
      ((((processBatch gateway tasks concurrency defaultConcurrency
        duration_ms).1).filter (fun r => r.success)).map
          (fun r => r.usage.input_tokens)).sum ∧
    (processBatch gateway tasks concurrency defaultConcurrency
        duration_ms).2.total_output_tokens =
      ((((processBatch gateway tasks concurrency defaultConcurrency
        duration_ms).1).filter (fun r => r.success)).map
          (fun r => r.usage.output_tokens)).sum ∧
    (processBatch gateway tasks concurrency defaultConcurrency
        duration_ms).2.total_cost_usd =
      estimateCost
        { input_tokens :=
            ((((processBatch gateway tasks concurrency defaultConcurrency
              duration_ms).1).filter (fun r => r.success)).map
                (fun r => r.usage.input_tokens)).sum
          output_tokens :=
            ((((processBatch gateway tasks concurrency defaultConcurrency
              duration_ms).1).filter (fun r => r.success)).map
                (fun r => r.usage.output_tokens)).sum } := by
  simp only [processBatch_eq]
  have hset := settleTask_of_error gateway (tasks.get ⟨i, hi⟩) e he
  have hsumIn := sum_usage_filter_success (fun u => u.input_tokens) rfl
    (tasks.map (settleTask gateway)) (settled_failed_usage gateway tasks)
  have hsumOut := sum_usage_filter_success (fun u => u.output_tokens) rfl
    (tasks.map (settleTask gateway)) (settled_failed_usage gateway tasks)
  refine ⟨?_, hsumIn, hsumOut, ?_⟩
  · refine ⟨settleTask gateway (tasks.get ⟨i, hi⟩), ?_, by rw [hset], by rw [hset]⟩
    rw [List.getElem?_map, List.getElem?_eq_getElem hi]
    simp [List.get_eq_getElem]
  · rw [hsumIn, hsumOut]

/-- Witness for C10: a single-task batch whose Gateway call rejects. -/
theorem failed_task_contributes_nothing_witness :
    (∃ r, ((processBatch gwFail [taskA] (some 2) 5 0).1)[0]? = some r ∧
      r.response = "" ∧ r.usage = { input_tokens := 0, output_tokens := 0 }) ∧
    (processBatch gwFail [taskA] (some 2) 5 0).2.total_input_tokens =
      ((((processBatch gwFail [taskA] (some 2) 5 0).1).filter
        (fun r => r.success)).map (fun r => r.usage.input_tokens)).sum ∧
    (processBatch gwFail [taskA] (some 2) 5 0).2.total_output_tokens =
      ((((processBatch gwFail [taskA] (some 2) 5 0).1).filter
        (fun r => r.success)).map (fun r => r.usage.output_tokens)).sum ∧
    (processBatch gwFail [taskA] (some 2) 5 0).2.total_cost_usd =
      estimateCost
        { input_tokens :=
            ((((processBatch gwFail [taskA] (some 2) 5 0).1).filter
              (fun r => r.success)).map (fun r => r.usage.input_tokens)).sum
          output_tokens :=
            ((((processBatch gwFail [taskA] (some 2) 5 0).1).filter
              (fun r => r.success)).map (fun r => r.usage.output_tokens)).sum } :=
  failed_task_contributes_nothing gwFail [taskA] (some 2) 5 0 (by decide)
    0 (by decide) "boom" rfl

/-- C8: `estimateCost` computes the 6-decimal rounding of
`input/1e6 * input_rate + output/1e6 * output_rate`, is monotone
non-decreasing in both token counts, and is zero on zero usage. -/
theorem estimateCost_spec :
    (∀ u : MinimaxUsage, estimateCost u =
      (jsMathRound (((u.input_tokens : ℚ) / 1000000 * PRICING_input_per_million +
        (u.output_tokens : ℚ) / 1000000 * PRICING_output_per_million)
          * 1000000) : ℚ) / 1000000) ∧
    (∀ u v : MinimaxUsage, u.input_tokens ≤ v.input_tokens →
      u.output_tokens ≤ v.output_tokens → estimateCost u ≤ estimateCost v) ∧
    estimateCost { input_tokens := 0, output_tokens := 0 } = 0 := by
  refine ⟨fun u => rfl, ?_, ?_⟩
  · intro u v h1 h2
    unfold estimateCost jsMathRound
    have hi : (u.input_tokens : ℚ) ≤ (v.input_tokens : ℚ) := by exact_mod_cast h1
    have ho : (u.output_tokens : ℚ) ≤ (v.output_tokens : ℚ) := by exact_mod_cast h2
    have harg :
        ((u.input_tokens : ℚ) / 1000000 * PRICING_input_per_million +
          (u.output_tokens : ℚ) / 1000000 * PRICING_output_per_million) * 1000000 ≤
        ((v.input_tokens : ℚ) / 1000000 * PRICING_input_per_million +
          (v.output_tokens : ℚ) / 1000000 * PRICING_output_per_million) * 1000000 := by
      unfold PRICING_input_per_million PRICING_output_per_million
      linarith
    have hfloor := Int.floor_le_floor (by linarith :
      ((u.input_tokens : ℚ) / 1000000 * PRICING_input_per_million +
        (u.output_tokens : ℚ) / 1000000 * PRICING_output_per_million) * 1000000 + 1 / 2 ≤
      ((v.input_tokens : ℚ) / 1000000 * PRICING_input_per_million +
        (v.output_tokens : ℚ) / 1000000 * PRICING_output_per_million) * 1000000 + 1 / 2)
    have hcast : ((⌊((u.input_tokens : ℚ) / 1000000 * PRICING_input_per_million +
        (u.output_tokens : ℚ) / 1000000 * PRICING_output_per_million) * 1000000 + 1 / 2⌋ : ℤ) : ℚ) ≤
        ((⌊((v.input_tokens : ℚ) / 1000000 * PRICING_input_per_million +
          (v.output_tokens : ℚ) / 1000000 * PRICING_output_per_million) * 1000000 + 1 / 2⌋ : ℤ) : ℚ) := by
      exact_mod_cast hfloor
    exact (div_le_div_iff_of_pos_right (by norm_num)).mpr hcast
  · norm_num [estimateCost, jsMathRound, PRICING_input_per_million,
      PRICING_output_per_million]

/-- Witness for C8: monotonicity instantiated at concrete usage records. -/
theorem estimateCost_spec_witness :
    estimateCost { input_tokens := 100, output_tokens := 200 } ≤
      estimateCost { input_tokens := 300, output_tokens := 400 } :=
  estimateCost_spec.2.1 { input_tokens := 100, output_tokens := 200 }
    { input_tokens := 300, output_tokens := 400 } (by decide) (by decide)

/-! ## Helper lemmas about the ledger -/

/-- `capLast` is a single drop of the oldest entries from the front. -/
theorem capLast_eq_drop (cap : Nat) (l : List α) :
    capLast cap l = l.drop (l.length - cap) := by
  unfold capLast
  split
  · rfl
  · have h : l.length - cap = 0 := by omega
    rw [h, List.drop_zero]

/-- The length of a capped list. -/
theorem capLast_length (cap : Nat) (l : List α) :
    (capLast cap l).length = min l.length cap := by
  rw [capLast_eq_drop, List.length_drop]
  omega

/-- Capping after a push keeps the newly pushed entry as the last one. -/
theorem capLast_concat_getLast? (cap : Nat) (hcap : 0 < cap) (l : List α)
    (a : α) : (capLast cap (l ++ [a])).getLast? = some a := by
  rw [capLast_eq_drop, List.drop_append_eq_append_drop]
  have h1 : (l ++ [a]).length - cap - l.length = 0 := by
    rw [List.length_append]
    simp only [List.length_cons, List.length_nil]
    omega
  rw [h1, List.drop_zero]
  exact List.getLast?_concat _

/-- `updateFirst` preserves the length. -/
theorem updateFirst_length (p : α → Bool) (f : α → α) (l : List α) :
    (updateFirst p f l).length = l.length := by
  induction l with
  | nil => rfl
  | cons x xs ih =>
      unfold updateFirst
      split <;> simp [ih]

/-- `updateFirst` commutes with a projection the update preserves. -/
theorem updateFirst_map (p : α → Bool) (f : α → α) (g : α → β)
    (hg : ∀ a, g (f a) = g a) (l : List α) :
    (updateFirst p f l).map g = l.map g := by
  induction l with
  | nil => rfl
  | cons x xs ih =>
      unfold updateFirst
      split <;> simp [ih, hg]

/-- Lazy window rotation touches only the current window. -/
theorem ensureLoaded_fields (now : Nat) (d : UsageData) :
    (ensureLoaded now d).daily_totals = d.daily_totals ∧
    (ensureLoaded now d).recent_requests = d.recent_requests ∧
    (ensureLoaded now d).pipeline_runs = d.pipeline_runs := by
  unfold ensureLoaded
  split <;> exact ⟨rfl, rfl, rfl⟩

/-- The recent-request log after `recordRequest`: push then cap at 200. -/
theorem recordRequest_recent (now : Nat) (params : RecordParams)
    (d : UsageData) :
    (recordRequest now params d).recent_requests
      = some (capLast 200 (d.recent_requests.getD [] ++ [mkRequestLog now params])) := by
  simp [recordRequest, (ensureLoaded_fields now d).2.1]

/-- The daily totals after `recordRequest`: find-or-create then bump. -/
theorem recordRequest_daily (now : Nat) (params : RecordParams)
    (d : UsageData) :
    (recordRequest now params d).daily_totals
      = updateFirst (fun e => e.date = getTodayDate now) (bumpDaily params)
          (dailyStep (getTodayDate now) d.daily_totals) := by
  simp [recordRequest, (ensureLoaded_fields now d).1]

/-- The pipeline runs after `recordRequest`. -/
theorem recordRequest_pipeline (now : Nat) (params : RecordParams)
    (d : UsageData) :
    (recordRequest now params d).pipeline_runs
      = pipelineStep now params d.pipeline_runs := by
  simp [recordRequest, (ensureLoaded_fields now d).2.2]

/-! ## Claim theorems for the ledger -/

/-- C3: a `record` call while the window has not expired adds exactly
`task_count` to `prompt_count`; once the window's end has passed, `record`
and `get_remaining` first replace it by a fresh window with zero count and
`window_end = now + WINDOW_DURATION_MS` (so a `record` then counts from
zero). -/
theorem window_lifecycle (now : Nat) (params : RecordParams) (d : UsageData) :
    (isWindowExpired now d.current_window = false →
      (recordRequest now params d).current_window.prompt_count
        = d.current_window.prompt_count + params.taskCount) ∧
    (isWindowExpired now d.current_window = true →
      (ensureLoaded now d).current_window = createNewWindow now ∧
      (getRemainingPrompts now d).2.current_window = createNewWindow now ∧
      (createNewWindow now).prompt_count = 0 ∧
      (createNewWindow now).window_end = now + WINDOW_DURATION_MS ∧
      (recordRequest now params d).current_window.prompt_count
        = params.taskCount) := by
  constructor
  · intro h
    simp [recordRequest, ensureLoaded, h, bumpWindow]
  · intro h
    refine ⟨by simp [ensureLoaded, h],
            by simp [getRemainingPrompts, ensureLoaded, h], rfl, rfl, ?_⟩
    simp [recordRequest, ensureLoaded, h, bumpWindow, createNewWindow]

/-- Witness for C3: recording at time 5 inside the fresh window of `dataA`
increments by `taskCount`; at the window's end the window rotates. -/
theorem window_lifecycle_witness :
    (recordRequest 5 paramsA dataA).current_window.prompt_count
      = dataA.current_window.prompt_count + paramsA.taskCount ∧
    (ensureLoaded WINDOW_DURATION_MS dataA).current_window
      = createNewWindow WINDOW_DURATION_MS ∧
    (recordRequest WINDOW_DURATION_MS paramsA dataA).current_window.prompt_count
      = paramsA.taskCount :=
  ⟨(window_lifecycle 5 paramsA dataA).1 (by decide),
   ((window_lifecycle WINDOW_DURATION_MS paramsA dataA).2 (by decide)).1,
   ((window_lifecycle WINDOW_DURATION_MS paramsA dataA).2 (by decide)).2.2.2.2⟩

/-- C5: after `record` on a pre-state within the caps (as every state
reachable from a fresh ledger is), the recent-request log has at most 200
entries, the daily totals at most 30 and the pipeline runs at most 10; each
appended-to list is the pushed list with the oldest entries beyond the cap
dropped from the front. -/
theorem record_caps_and_fifo (now : Nat) (params : RecordParams)
    (d : UsageData)
    (hdaily : d.daily_totals.length ≤ 30)
    (hpipe : (d.pipeline_runs.getD []).length ≤ 10) :
    ((recordRequest now params d).recent_requests.getD []).length ≤ 200 ∧
    (recordRequest now params d).daily_totals.length ≤ 30 ∧
    ((recordRequest now params d).pipeline_runs.getD []).length ≤ 10 ∧
    (recordRequest now params d).recent_requests
      = some ((d.recent_requests.getD [] ++ [mkRequestLog now params]).drop
          ((d.recent_requests.getD []).length + 1 - 200)) ∧
    (d.daily_totals.find? (fun e => e.date = getTodayDate now) = none →
      (recordRequest now params d).daily_totals.map (fun e => e.date)
        = ((d.daily_totals ++ [newDailyEntry (getTodayDate now)]).drop
            (d.daily_totals.length + 1 - 30)).map (fun e => e.date)) ∧
    (∀ pl, params.pipeline = some pl → isTruthy params.caller = true →
      (recordRequest now params d).pipeline_runs
        = some ((d.pipeline_runs.getD [] ++ [mkPipelineRun now params pl]).drop
            ((d.pipeline_runs.getD []).length + 1 - 10))) := by
  refine ⟨?_, ?_, ?_, ?_, ?_, ?_⟩
  · rw [recordRequest_recent, Option.getD_some, capLast_length]
    omega
  · rw [recordRequest_daily, updateFirst_length]
    unfold dailyStep
    split
    · exact hdaily
    · rw [capLast_length]
      omega
  · rw [recordRequest_pipeline]
    unfold pipelineStep
    cases params.pipeline with
    | none => exact hpipe
    | some pl =>
        by_cases hct : isTruthy params.caller = true
        · simp only [hct, if_true, Option.getD_some, capLast_length]
          omega
        · simp only [hct, if_false]
          exact hpipe
  · have hlen : (d.recent_requests.getD [] ++ [mkRequestLog now params]).length
        = (d.recent_requests.getD []).length + 1 := by
      rw [List.length_append]
      rfl
    rw [recordRequest_recent, capLast_eq_drop, hlen]
  · intro hfind
    have hlen : (d.daily_totals ++ [newDailyEntry (getTodayDate now)]).length
        = d.daily_totals.length + 1 := by
      rw [List.length_append]
      rfl
    rw [recordRequest_daily,
      updateFirst_map (fun e => e.date = getTodayDate now) (bumpDaily params)
        (fun e => e.date) (fun a => rfl)]
    simp only [dailyStep, hfind]
    rw [capLast_eq_drop, hlen]
  · intro pl hpl hcaller
    have hlen : (d.pipeline_runs.getD [] ++ [mkPipelineRun now params pl]).length
        = (d.pipeline_runs.getD []).length + 1 := by
      rw [List.length_append]
      rfl
    rw [recordRequest_pipeline]
    unfold pipelineStep
    rw [hpl]
    simp only [hcaller, if_true]
    rw [capLast_eq_drop, hlen]

/-- Witness for C5: a pipeline-carrying record on the fresh ledger. -/
theorem record_caps_and_fifo_witness :
    ((recordRequest 5 paramsPipe dataA).recent_requests.getD []).length ≤ 200 ∧
    (recordRequest 5 paramsPipe dataA).daily_totals.length ≤ 30 ∧
    ((recordRequest 5 paramsPipe dataA).pipeline_runs.getD []).length ≤ 10 ∧
    (recordRequest 5 paramsPipe dataA).recent_requests
      = some ((dataA.recent_requests.getD [] ++ [mkRequestLog 5 paramsPipe]).drop
          ((dataA.recent_requests.getD []).length + 1 - 200)) ∧
    (recordRequest 5 paramsPipe dataA).daily_totals.map (fun e => e.date)
      = ((dataA.daily_totals ++ [newDailyEntry (getTodayDate 5)]).drop
          (dataA.daily_totals.length + 1 - 30)).map (fun e => e.date) ∧
    (recordRequest 5 paramsPipe dataA).pipeline_runs
      = some ((dataA.pipeline_runs.getD [] ++
          [mkPipelineRun 5 paramsPipe { skill_chain := ["copus:review"] }]).drop
          ((dataA.pipeline_runs.getD []).length + 1 - 10)) := by
  have h := record_caps_and_fifo 5 paramsPipe dataA (by decide) (by decide)
  exact ⟨h.1, h.2.1, h.2.2.1, h.2.2.2.1, h.2.2.2.2.1 (by decide),
    h.2.2.2.2.2 { skill_chain := ["copus:review"] } rfl (by decide)⟩

/-- C6 (amended: the error field set to a non-empty string): the `record`
call still executes fully — `prompt_count` of the (possibly just rotated)
current window grows by exactly `taskCount`, and the appended log entry is
last in `recent_requests` with its error text present: the original when at
most 500 characters, otherwise its first 500 characters with `"..."`
appended. -/
theorem record_error_still_accounted (now : Nat) (params : RecordParams)
    (d : UsageData) (e : String) (he : params.error = some e) (hne : e ≠ "") :
    (recordRequest now params d).current_window.prompt_count
      = (ensureLoaded now d).current_window.prompt_count + params.taskCount ∧
    ((recordRequest now params d).recent_requests.getD []).getLast?
      = some (mkRequestLog now params) ∧
    (mkRequestLog now params).error
      = some (if 500 < e.length then e.take 500 ++ "..." else e) ∧
    (mkRequestLog now params).task_count = params.taskCount := by
  refine ⟨by simp [recordRequest, bumpWindow], ?_, ?_, rfl⟩
  · rw [recordRequest_recent, Option.getD_some]
    exact capLast_concat_getLast? 200 (by norm_num) _ _
  · simp only [mkRequestLog, truncatedErrorOf, he]
    rw [if_neg hne]
    split <;> rfl

/-- Witness for C6: a failed query recorded with a short non-empty error. -/
theorem record_error_still_accounted_witness :
    (recordRequest 5 paramsErr dataA).current_window.prompt_count
      = (ensureLoaded 5 dataA).current_window.prompt_count + paramsErr.taskCount ∧
    ((recordRequest 5 paramsErr dataA).recent_requests.getD []).getLast?
      = some (mkRequestLog 5 paramsErr) ∧
    (mkRequestLog 5 paramsErr).error
      = some (if 500 < "MiniMax API error 500: oops".length
          then "MiniMax API error 500: oops".take 500 ++ "..."
          else "MiniMax API error 500: oops") ∧
    (mkRequestLog 5 paramsErr).task_count = paramsErr.taskCount :=
  record_error_still_accounted 5 paramsErr dataA
    "MiniMax API error 500: oops" rfl (by decide)

/-- C6 counterexample: a `record` call whose error field is set — to the
empty string — appends a log entry with NO error text, because the source's
truthiness test `params.error ?` treats the empty string as absent. -/
theorem record_empty_error_cex :
    paramsEmptyErr.error = some "" ∧
    ((recordRequest 5 paramsEmptyErr dataA).recent_requests.getD []).map
      (fun l => l.error) = [none] :=
  ⟨rfl, by decide⟩

/-- C7: loading durable state is total: a parsed document carrying only
`current_window` and `daily_totals` loads with `recent_requests` defaulted
to `[]` and `provider` to the static metadata (`pipeline_runs` stays absent
until the first `record`), while an absent or malformed file yields the
freshly initialized state: zeroed window, no daily totals, empty logs. -/
theorem load_never_fatal (now : Nat) (doc : UsageData)
    (hr : doc.recent_requests = none) (hpl : doc.pipeline_runs = none)
    (hp : doc.provider = none) :
    loadUsageData now (FileReadResult.parsed doc)
      = { current_window := doc.current_window
          daily_totals := doc.daily_totals
          recent_requests := some []
          pipeline_runs := none
          provider := some defaultProvider } ∧
    loadUsageData now FileReadResult.absent = freshUsageData now ∧
    loadUsageData now FileReadResult.malformed = freshUsageData now ∧
    (freshUsageData now).current_window = createNewWindow now ∧
    (createNewWindow now).prompt_count = 0 ∧
    (freshUsageData now).daily_totals = [] ∧
    (freshUsageData now).recent_requests = some [] ∧
    (freshUsageData now).pipeline_runs.getD [] = [] := by
  refine ⟨?_, rfl, rfl, rfl, rfl, rfl, rfl, rfl⟩
  cases doc with
  | mk cw dl rr pr pv =>
      simp only at hr hpl hp
      subst hr
      subst hpl
      subst hp
      simp [loadUsageData]

/-- Witness for C7: the sample two-field document. -/
theorem load_never_fatal_witness :
    loadUsageData 7 (FileReadResult.parsed docA)
      = { current_window := docA.current_window
          daily_totals := docA.daily_totals
          recent_requests := some []
          pipeline_runs := none
          provider := some defaultProvider } ∧
    loadUsageData 7 FileReadResult.absent = freshUsageData 7 ∧
    loadUsageData 7 FileReadResult.malformed = freshUsageData 7 ∧
    (freshUsageData 7).current_window = createNewWindow 7 ∧
    (createNewWindow 7).prompt_count = 0 ∧
    (freshUsageData 7).daily_totals = [] ∧
    (freshUsageData 7).recent_requests = some [] ∧
    (freshUsageData 7).pipeline_runs.getD [] = [] :=
  load_never_fatal 7 docA rfl rfl rfl

/-- C4 (amended: the refusal message names the remaining quota and the
requested batch size, from which the shortfall is their difference — it
does not spell out the difference itself): an undersized quota refuses the
whole batch before any Gateway call — the outcome is the rate-limit error
and is independent of the Gateway — and the message contains the decimal
renderings of the remaining quota and of the batch size. -/
theorem quota_gate_refuses_whole_batch (gateway gateway' : Gateway)
    (remaining : Nat) (tasks : List BatchTask) (concurrency : Option Nat)
    (defaultConcurrency duration_ms : Nat)
    (h : remaining < tasks.length) :
    llm_batch gateway remaining tasks concurrency defaultConcurrency duration_ms
      = Except.error (rateLimitBatchMsg remaining tasks.length) ∧
    llm_batch gateway remaining tasks concurrency defaultConcurrency duration_ms
      = llm_batch gateway' remaining tasks concurrency defaultConcurrency duration_ms ∧
    (toString remaining).toList <:+: (rateLimitBatchMsg remaining tasks.length).toList ∧
    (toString tasks.length).toList <:+: (rateLimitBatchMsg remaining tasks.length).toList := by
  refine ⟨by simp [llm_batch, h], by simp [llm_batch, h], ?_, ?_⟩
  · refine ⟨"Rate limit: Only ".toList,
      (" prompts remaining but " ++ toString tasks.length ++
        " requested. Reduce batch size or wait for window reset.").toList, ?_⟩
    show _ ++ _ ++ _ = _
    simp [rateLimitBatchMsg, String.toList, String.data_append, List.append_assoc]
  · refine ⟨("Rate limit: Only " ++ toString remaining ++
        " prompts remaining but ").toList,
      " requested. Reduce batch size or wait for window reset.".toList, ?_⟩
    show _ ++ _ ++ _ = _
    simp [rateLimitBatchMsg, String.toList, String.data_append, List.append_assoc]

/-- Witness for C4: remaining quota 3 against a batch of five tasks. -/
theorem quota_gate_refuses_whole_batch_witness :
    llm_batch gwOk 3 fiveTasks none 5 0
      = Except.error (rateLimitBatchMsg 3 fiveTasks.length) ∧
    llm_batch gwOk 3 fiveTasks none 5 0 = llm_batch gwFail 3 fiveTasks none 5 0 ∧
    (toString 3).toList <:+: (rateLimitBatchMsg 3 fiveTasks.length).toList ∧
    (toString fiveTasks.length).toList <:+:
      (rateLimitBatchMsg 3 fiveTasks.length).toList :=
  quota_gate_refuses_whole_batch gwOk gwFail 3 fiveTasks none 5 0 (by decide)

set_option maxRecDepth 10000 in
/-- C4 counterexample: with 3 prompts remaining and a batch of 5 requested
the refusal is produced, but its text does not name the shortfall of 2 —
the digit 2 appears nowhere in the message. -/
theorem quota_gate_shortfall_cex :
    llm_batch gwOk 3 fiveTasks none 5 0
      = Except.error (rateLimitBatchMsg 3 5) ∧
    fiveTasks.length - 3 = 2 ∧
    ¬ ((toString (fiveTasks.length - 3)).toList <:+:
        (rateLimitBatchMsg 3 5).toList) := by
  refine ⟨rfl, rfl, ?_⟩
  decide

end LlmSwarm
